import Mathlib

/-!
# Verification of the Hirethics AI scoring / bias-audit frontend

Shallow embedding of the report-handling and presentation logic of the
Hirethics AI repository (TypeScript), together with spec-modelled
definitions for the backend engine components whose code is not part of
the checked sources.  JavaScript numbers are modelled as rationals `ℚ`;
`Math.round` is `round` (both are floor of `x + 1/2`), `x.toFixed(d)`
followed by `Number` is modelled as rounding to `d` decimal places.
-/

namespace Hirethics

/-- `Number(x.toFixed(1))`: round to 1 decimal place (tiny util `round1`
in `Evaluation.tsx`). -/
def round1 (x : ℚ) : ℚ := (round (x * 10) : ℚ) / 10

/-- `Number(x.toFixed(2))`: round to 2 decimal places (tiny util `round2`
in `Evaluation.tsx`, and the `.toFixed(2)` in `format.ts`). -/
def round2 (x : ℚ) : ℚ := (round (x * 100) : ℚ) / 100

/-- Flag severity, `"info" | "warning"` in `format.ts`. -/
inductive Severity where
  | info
  | warning
deriving DecidableEq, Repr

/-- The structured payload carried by a flag (`details?: any` in
`format.ts`); we model the fields the checked code reads, each optional:
an absent entry models both a missing key and a non-numeric value. -/
structure FlagDetails where
  delta : Option ℚ := none
  total_before : Option ℚ := none
  total_after : Option ℚ := none
  evidence_overlap : List (String × ℚ) := []
deriving DecidableEq, Repr

/-- `FlagObj` from `format.ts`. -/
structure FlagObj where
  type : String
  severity : Severity
  message : Option String := none
  details : Option FlagDetails := none
deriving DecidableEq, Repr

/-- `AnyFlag = FlagObj | string` from `format.ts`. -/
inductive AnyFlag where
  | str (s : String)
  | obj (f : FlagObj)
deriving DecidableEq, Repr

/-- `asFlagObj` from `format.ts`: a bare string becomes a flag whose
severity is `info` for `"DEBUG"` and `warning` otherwise. -/
def asFlagObj : AnyFlag → FlagObj
  | .str s => { type := s, severity := if s = "DEBUG" then .info else .warning }
  | .obj f => f

/-- `Criterion` from `format.ts`. -/
structure Criterion where
  key : String
  score : ℚ
  evidence_span : String
  rationale : String
deriving DecidableEq, Repr

/-- The empty `details` object `{}` produced by `f?.details || {}`. -/
def emptyDetails : FlagDetails := {}

/-- `getDebug` from `format.ts`: details of the first `DEBUG` flag, or
`{}`. -/
def getDebug (flags : List FlagObj) : FlagDetails :=
  match flags.find? (fun f => f.type = "DEBUG") with
  | some f => f.details.getD emptyDetails
  | none => emptyDetails

/-- `getDelta` from `format.ts`: prefer the first `DEBUG` flag's numeric
`details.delta`; otherwise the first `BLINDING_DELTA` flag's
`total_before - total_after` rounded to 2 decimals; otherwise `0`. -/
def getDelta (flags : List FlagObj) : ℚ :=
  match (getDebug flags).delta with
  | some d => d
  | none =>
    match flags.find? (fun f => f.type = "BLINDING_DELTA") with
    | some f =>
      match f.details with
      | some det =>
        match det.total_before, det.total_after with
        | some tb, some ta => round2 (tb - ta)
        | _, _ => 0
      | none => 0
    | none => 0

/-- Result record of `evidenceCoverage` from `format.ts`. -/
structure Coverage where
  strong : ℕ
  weak : ℕ
  miss : ℕ
  pct : ℤ
  overlap : List (String × ℚ)
deriving DecidableEq, Repr

/-- `evidenceCoverage` from `format.ts`: bucket each criterion by its
`DEBUG` `evidence_overlap` value (missing key counts as `0`) into
strong (`≥ 0.7`), weak (`≥ 0.4` and `< 0.7`) and miss (`< 0.4`);
`pct` is `Math.round(100 * strong / |criteria|)`, `0` for no criteria. -/
def evidenceCoverage (flags : List FlagObj) (by_ : List Criterion) : Coverage :=
  let overlap := (getDebug flags).evidence_overlap
  let keys := by_.map (·.key)
  let scores := keys.map (fun k => (overlap.lookup k).getD 0)
  { strong := scores.countP (fun s => decide ((7 : ℚ)/10 ≤ s))
    weak := scores.countP (fun s => decide ((2 : ℚ)/5 ≤ s ∧ s < 7/10))
    miss := scores.countP (fun s => decide (s < (2 : ℚ)/5))
    pct := if keys.length = 0 then 0 else round (((scores.countP (fun s => decide ((7 : ℚ)/10 ≤ s)) : ℚ) / keys.length) * 100)
    overlap := overlap }

/-- `ViewerMode` from `viewer.ts`. -/
inductive ViewerMode where
  | recruiter
  | ethics
  | dev
deriving DecidableEq, Repr

/-- `visibleFlags` from `viewer.ts`: recruiter sees only non-`DEBUG`
warnings, ethics sees everything but `DEBUG`, dev sees all flags. -/
def visibleFlags (flags : List FlagObj) : ViewerMode → List FlagObj
  | .recruiter => flags.filter (fun f => f.severity = .warning ∧ f.type ≠ "DEBUG")
  | .ethics => flags.filter (fun f => f.type ≠ "DEBUG")
  | .dev => flags

/-- Chip tone used by `ScoreCard` components. -/
inductive Tone where
  | good
  | warn
  | bad
  | muted
deriving DecidableEq, Repr

/-- Label/tone pair returned by `stabilityLabel`. -/
structure StabLabel where
  label : String
  tone : Tone
deriving DecidableEq, Repr

/-- `stabilityLabel` from the `ScoreCard.tsx` variant: classify the
absolute blinding delta against `0.05` and the threshold
(default `0.25`). -/
def stabilityLabel (delta : Option ℚ) (threshold : ℚ := 1/4) : StabLabel :=
  match delta with
  | none => { label := "N/A", tone := .muted }
  | some d =>
    let a := |d|
    if a < 1/20 then { label := "Stable", tone := .good }
    else if a < threshold then { label := "Slight shift", tone := .warn }
    else { label := "Unstable", tone := .bad }

/-- `blindingNote` from `components/ScoreCard.tsx`: prose describing the
blinding impact, keyed on the sign of `getDelta`'s result. -/
def blindingNote (delta : ℚ) (proxy : Option FlagObj) : String :=
  if delta = 0 then
    match proxy with
    | some p =>
      if p.severity = .warning then
        "Prestige signals detected (review), but did not change the total."
      else "Generic institution mention; no change to score."
    | none => "No change under blinding."
  else if 0 < delta then
    "Total decreased after blinding (possible prestige boost before)."
  else "Total increased after blinding (prestige removal increased score)."

/-- The per-candidate delta computed in `DemoBox` (`Landing.tsx`):
`auditRow.delta` when numeric, else `totalAfter - Number(s.total || 0)`
when `totalAfter` is known, else `null`. -/
def demoBoxDelta (auditDelta totalAfter sTotal : Option ℚ) : Option ℚ :=
  match auditDelta with
  | some d => some d
  | none =>
    match totalAfter with
    | some ta => some (ta - sTotal.getD 0)
    | none => none

/-! ## Canonical report payload (`types/report.ts`) and its producers

`Math.random()` is an external effect; report producers are embedded
with an explicit stream `rand : ℕ → ℚ` whose values are the successive
draws of `Math.random()` (each in `[0,1)`).  A function is
"deterministic with no hidden randomness" exactly when its output does
not depend on this stream. -/

/-- `Candidate.score` from `types/report.ts`. -/
structure CandScore where
  overall : ℚ
  fairness : ℚ
  transparency : ℚ
deriving DecidableEq, Repr

/-- `Candidate` from `types/report.ts`. -/
structure Candidate where
  candidate_id : String
  score : CandScore
  flags : List String
deriving DecidableEq, Repr

/-- `ReportPayload` from `types/report.ts` (optional summary fields). -/
structure ReportPayload where
  batch_id : String
  n_candidates : ℤ
  spearman_rho : Option ℚ := none
  topk_overlap_count : Option ℤ := none
  mean_abs_delta : Option ℚ := none
  candidates : List Candidate
deriving DecidableEq, Repr

/-- `buildMockReport` from `utils/mockScoring.ts`.  Candidate `i`
consumes draws `3i, 3i+1, 3i+2`; the three summary metrics consume the
next three draws.  `topk_overlap_count` is
`Math.floor(1 + Math.random() * n)`. -/
def buildMockReport (rand : ℕ → ℚ) (batch_id : String)
    (candidate_ids : List String) : ReportPayload :=
  let n := candidate_ids.length
  let candidates : List Candidate := candidate_ids.mapIdx (fun i id =>
    { candidate_id := id
      score :=
        { overall := round1 (70 + rand (3*i) * 25)
          fairness := round1 (60 + rand (3*i+1) * 35)
          transparency := round1 (55 + rand (3*i+2) * 40) }
      flags := if i % 2 = 0 then ["minor_gap", "low_experience"]
               else ["keyword_mismatch"] })
  { batch_id := batch_id
    n_candidates := candidates.length
    spearman_rho := some (round2 (2/5 + rand (3*n) * (1/2)))
    topk_overlap_count := some ⌊1 + rand (3*n+1) * (candidates.length : ℚ)⌋
    mean_abs_delta := some (round2 (rand (3*n+2) * 5))
    candidates := candidates }

/-- Candidate entry of the shape the Evaluation page renders
(`CandidateScore`-like objects built by `fromLocalCanonicalToEvaluation`). -/
structure EvalCandidate where
  candidate_id : String
  total_after : ℚ
  total_before : ℚ
  by_criterion : List (String × ℚ)
deriving DecidableEq, Repr

/-- Per-candidate flag record (`ethics_flags` entries). -/
structure CandFlags where
  candidate_id : String
  flags : List String
deriving DecidableEq, Repr

/-- Object returned by `fromLocalCanonicalToEvaluation`. -/
structure EvaluationData where
  batch_id : String
  k : ℕ
  n_candidates : ℤ
  spearman_rho : ℚ
  topk_overlap_count : ℕ
  topk_overlap_ratio : ℚ
  mean_abs_delta : ℚ
  flags_by_type : List (String × ℕ)
  ethics_flags : List CandFlags
  candidates : List EvalCandidate
deriving DecidableEq, Repr

/-- One step of the JS `reduce` building `flags_by_type`: bump the count
of `f`, inserting it at the end on first occurrence (JS object key
order). -/
def countUp (acc : List (String × ℕ)) (f : String) : List (String × ℕ) :=
  if acc.any (fun p => p.1 = f) then
    acc.map (fun p => if p.1 = f then (p.1, p.2 + 1) else p)
  else acc ++ [(f, 1)]

/-- `fromLocalCanonicalToEvaluation` from `pages/Evaluation.tsx`
(part of the Landing/Evaluation flow): turn the cached canonical
`ReportPayload` into the shape the Evaluation page renders.  Missing
`spearman_rho` / `mean_abs_delta` are mocked with `Math.random`
(draws `rand 0` / `rand 1`). -/
def fromLocalCanonicalToEvaluation (rand : ℕ → ℚ) (report : ReportPayload)
    (topK : Option ℕ) : EvaluationData :=
  let k := topK.getD 5
  let candidates : List EvalCandidate := report.candidates.map (fun c =>
    let total_after := round1 c.score.overall
    { candidate_id := c.candidate_id
      total_after := total_after
      total_before := total_after
      by_criterion := [("Fairness", round1 c.score.fairness),
                       ("Transparency", round1 c.score.transparency)] })
  let ethics_flags : List CandFlags := report.candidates.map (fun c =>
    { candidate_id := c.candidate_id, flags := c.flags })
  let allFlags := ethics_flags.flatMap (·.flags)
  let flags_by_type := allFlags.foldl countUp []
  let topk_overlap_count := min k (min report.candidates.length 3)
  { batch_id := report.batch_id
    k := k
    n_candidates := report.n_candidates
    spearman_rho :=
      match report.spearman_rho with
      | some v => v
      | none => round2 (4/5 + rand 0 * (3/20))
    topk_overlap_count := topk_overlap_count
    topk_overlap_ratio :=
      if report.candidates.length = 0 then 0
      else (topk_overlap_count : ℚ) / ((min k report.candidates.length : ℕ) : ℚ)
    mean_abs_delta :=
      match report.mean_abs_delta with
      | some v => v
      | none => round2 (rand 1 * 2 + 1)
    flags_by_type := flags_by_type
    ethics_flags := ethics_flags
    candidates := candidates }

/-! ## Spec-modelled backend engine components

The rubric scorer, proxy blinder and flag generator live in the Python
backend, which is not among the checked sources; only their TypeScript
type declarations and callers are.  The definitions below are modelled
from the spec. -/

/-- Clamp a score into `[0, 5]` (spec §4.3: "scores clamped to [0,5]",
"clamp defensively to [0,5]"). -/
def clamp05 (x : ℚ) : ℚ := max 0 (min 5 x)

/-- A rubric criterion (spec §3): key, non-negative weight,
description. -/
structure SpecCriterion where
  key : String
  weight : ℚ
  description : String
deriving DecidableEq, Repr

/-- `CriterionScore` (spec §3). -/
structure CriterionScoreR where
  criterion_key : String
  score : ℚ
  evidence_span : String
  rationale : String
deriving DecidableEq, Repr

/-- `ScoreResult` (spec §3). -/
structure ScoreResult where
  total : ℚ
  by_criterion : List CriterionScoreR
  source : String
deriving DecidableEq, Repr

/-- Modelled from the spec: the deterministic fallback heuristic scorer
of `RubricScorer.score` (§4.3), whose backend code is not among the
checked sources.  For each criterion the candidate text (as word
tokens) is scanned for the criterion's keyword table; the score is a
base value plus an increment per distinct pattern match, capped at 5
and clamped to `[0,5]`; the evidence span is the first matched pattern
(empty if none); the total is the weighted sum, clamped defensively to
`[0,5]`. -/
def rubricScore (rubric : List SpecCriterion) (table : String → List String)
    (base increment : ℚ) (text : List String) : ScoreResult :=
  let crit := fun (c : SpecCriterion) =>
    let ms := ((table c.key).dedup).filter (fun p => p ∈ text)
    ({ criterion_key := c.key
       score := clamp05 (base + increment * ms.length)
       evidence_span := ms.head?.getD ""
       rationale := String.intercalate ", " ms } : CriterionScoreR)
  { total := clamp05 ((rubric.map (fun c => c.weight * (crit c).score)).sum)
    by_criterion := rubric.map crit
    source := "fallback" }

/-- `BlindingReport` (spec §3), with text as word tokens. -/
structure BlindingReport where
  blinded_text : List String
  tokens_strict_removed : List String
  tokens_generic_removed : List String
deriving DecidableEq, Repr

/-- Modelled from the spec: `ProxyBlinder.blind` (§4.4), whose backend
code is not among the checked sources.  Every token matching the
configured strict list or the generic institution pattern is replaced
by a fixed neutral placeholder; the removed tokens are recorded,
deduplicated, per category. -/
def blind (isStrict isGeneric : String → Bool) (placeholder : String)
    (text : List String) : BlindingReport :=
  { blinded_text := text.map (fun w =>
      if isStrict w || isGeneric w then placeholder else w)
    tokens_strict_removed := (text.filter isStrict).dedup
    tokens_generic_removed := (text.filter isGeneric).dedup }

/-- Modelled from the spec: the `BLINDING_DELTA` flag condition of the
`FlagGenerator` (§4.5), whose backend code is not among the checked
sources: the flag is raised iff `|total_before - total_after|` reaches
the threshold (inclusive). -/
def blindingDeltaFlagged (total_before total_after threshold : ℚ) : Bool :=
  threshold ≤ |total_before - total_after|

/-- Modelled from the spec: the severity prescribed for each flag type
(§3, §4.5): `PROXY_EVIDENCE` info, `BLINDING_DELTA` warning,
`NO_EVIDENCE` warning, `DEBUG` info. -/
def specSeverity (t : String) : Option Severity :=
  if t = "PROXY_EVIDENCE" then some .info
  else if t = "BLINDING_DELTA" then some .warning
  else if t = "NO_EVIDENCE" then some .warning
  else if t = "DEBUG" then some .info
  else none

/-! ## Shared concrete objects -/

/-- A `BLINDING_DELTA` flag carrying both totals, as the report
endpoint emits it. -/
def bdFlag (tb ta : ℚ) : FlagObj :=
  { type := "BLINDING_DELTA", severity := .warning,
    details := some { total_before := some tb, total_after := some ta } }

/-- A `DEBUG` flag carrying a numeric `delta`. -/
def dbgFlag (d : ℚ) : FlagObj :=
  { type := "DEBUG", severity := .info, details := some { delta := some d } }

/-- The demo rubric sent by `createJob` in `lib/api.ts`. -/
def demoRubric : List SpecCriterion :=
  [{ key := "sys_design", weight := 35/100, description := "Design scalable services" },
   { key := "prod_ownership", weight := 20/100, description := "Incidents, SLOs, on-call" },
   { key := "lang_stack", weight := 25/100, description := "Stack fit" },
   { key := "code_quality", weight := 20/100, description := "Tests, docs, CI/CD" }]

/-! ## Claims -/

/-- **C4, counterexample.** The claim fails as stated: the spec
prescribes severity `info` for `PROXY_EVIDENCE`, but `asFlagObj`
applied to the bare string `"PROXY_EVIDENCE"` yields severity
`warning` (any non-`DEBUG` string defaults to `warning`). -/
theorem c4_counterexample :
    (asFlagObj (.str "PROXY_EVIDENCE")).severity = .warning ∧
    specSeverity "PROXY_EVIDENCE" = some .info ∧
    Severity.warning ≠ .info := by
  decide

/-- **C4, amended.** `asFlagObj` assigns the spec-prescribed severity
to the string flag types `BLINDING_DELTA`, `NO_EVIDENCE` and `DEBUG`,
but assigns `warning` to `PROXY_EVIDENCE`, where the spec prescribes
`info`: the string fallback gives `info` only to `DEBUG`. -/
theorem c4_asFlagObj_severities :
    ((asFlagObj (.str "BLINDING_DELTA")).severity = .warning ∧
      specSeverity "BLINDING_DELTA" = some .warning) ∧
    ((asFlagObj (.str "NO_EVIDENCE")).severity = .warning ∧
      specSeverity "NO_EVIDENCE" = some .warning) ∧
    ((asFlagObj (.str "DEBUG")).severity = .info ∧
      specSeverity "DEBUG" = some .info) ∧
    (asFlagObj (.str "PROXY_EVIDENCE")).severity = .warning := by
  decide

/-- **C5.** With the default threshold `0.25`, the `Unstable`
classification of `stabilityLabel` applies exactly when
`|delta| ≥ 0.25` (inclusive at the boundary), and it coincides with
the spec-modelled `BLINDING_DELTA` flag condition evaluated on the
same pair of totals. -/
theorem c5_blinding_threshold_inclusive (d tb ta : ℚ) :
    ((stabilityLabel (some d) (1/4)).label = "Unstable" ↔ 1/4 ≤ |d|) ∧
    (blindingDeltaFlagged tb ta (1/4) = true ↔
      (stabilityLabel (some (tb - ta)) (1/4)).label = "Unstable") := by
  have key : ∀ x : ℚ, (stabilityLabel (some x) (1/4)).label = "Unstable" ↔ 1/4 ≤ |x| := by
    intro x
    show (if |x| < 1/20 then ({ label := "Stable", tone := .good } : StabLabel)
      else if |x| < 1/4 then { label := "Slight shift", tone := .warn }
      else { label := "Unstable", tone := .bad }).label = "Unstable" ↔ 1/4 ≤ |x|
    split_ifs with h1 h2
    · exact iff_of_false (by decide) (by push_neg; linarith)
    · exact iff_of_false (by decide) (by push_neg; linarith)
    · exact iff_of_true rfl (not_lt.mp h2)
  refine ⟨key d, ?_⟩
  rw [key (tb - ta)]
  simp [blindingDeltaFlagged]

/-- **C8.** `visibleFlags` is monotone in viewer privilege:
the recruiter view is a subset of the ethics view, which is a subset
of the dev view, and the dev view is the full flag list; no
`DEBUG`-typed flag ever appears in the recruiter or ethics output, and
every flag the recruiter sees has severity `warning`. -/
theorem c8_visibleFlags_monotone (flags : List FlagObj) :
    visibleFlags flags .recruiter ⊆ visibleFlags flags .ethics ∧
    visibleFlags flags .ethics ⊆ visibleFlags flags .dev ∧
    visibleFlags flags .dev = flags ∧
    (∀ f ∈ visibleFlags flags .recruiter, f.severity = .warning) ∧
    (∀ f : FlagObj, f.type = "DEBUG" →
      f ∉ visibleFlags flags .recruiter ∧ f ∉ visibleFlags flags .ethics) := by
  refine ⟨?_, ?_, rfl, ?_, ?_⟩
  · intro f hf
    simp only [visibleFlags, List.mem_filter, decide_eq_true_eq] at hf ⊢
    exact ⟨hf.1, hf.2.2⟩
  · intro f hf
    simp only [visibleFlags, List.mem_filter] at hf
    exact hf.1
  · intro f hf
    simp only [visibleFlags, List.mem_filter, decide_eq_true_eq] at hf
    exact hf.2.1
  · intro f hdbg
    constructor
    · intro hf
      simp only [visibleFlags, List.mem_filter, decide_eq_true_eq] at hf
      exact hf.2.2 hdbg
    · intro hf
      simp only [visibleFlags, List.mem_filter, decide_eq_true_eq] at hf
      exact hf.2 hdbg

/-- **C8 witness.** Concrete instantiation: in a two-flag list the
warning flag visible to the recruiter is also visible to the ethics
viewer. -/
theorem c8_visibleFlags_monotone_witness :
    bdFlag 1 0 ∈ visibleFlags [bdFlag 1 0, dbgFlag 1] .ethics := by
  exact (c8_visibleFlags_monotone [bdFlag 1 0, dbgFlag 1]).1 (by decide)

/-- **C1, counterexample.** The claim fails as stated: on the same pair
of totals `total_before = 1`, `total_after = 2`, `getDelta`
(`format.ts`) returns `1 - 2 = -1` (baseline minus blinded), while the
per-candidate fallback delta in `DemoBox` (`Landing.tsx`) computes
`totalAfter - s.total = 2 - 1 = 1`: the two presentation layers apply
opposite sign conventions. -/
theorem c1_counterexample :
    getDelta [bdFlag 1 2] = -1 ∧
    demoBoxDelta none (some 2) (some 1) = some 1 ∧
    (-1 : ℚ) ≠ 1 := by
  refine ⟨?_, ?_, by norm_num⟩
  · have h0 : getDelta [bdFlag 1 2] = round2 (1 - 2) := rfl
    have h1 : ((1 - 2 : ℚ) * 100) = ((-100 : ℤ) : ℚ) := by norm_num
    rw [h0, round2, h1, round_intCast]
    norm_num
  · simp only [demoBoxDelta, Option.getD_some]
    norm_num

/-- **C1, amended.** `getDelta` returns `total_before - total_after`
(baseline minus blinded, rounded to 2 decimals), and the
`blindingNote` in `ScoreCard.tsx` reads its sign under that same
convention; but the fallback delta of the Landing page `DemoBox`
computes `total_after - total_before`, the exact negation, so the two
conventions agree only when the totals are equal. -/
theorem c1_sign_conventions (tb ta : ℚ) :
    getDelta [bdFlag tb ta] = round2 (tb - ta) ∧
    demoBoxDelta none (some ta) (some tb) = some (ta - tb) ∧
    ta - tb = -(tb - ta) ∧
    (0 < tb - ta →
      blindingNote (tb - ta) none =
        "Total decreased after blinding (possible prestige boost before).") ∧
    (tb - ta < 0 →
      blindingNote (tb - ta) none =
        "Total increased after blinding (prestige removal increased score).") := by
  refine ⟨rfl, rfl, by ring, ?_, ?_⟩
  · intro h
    simp [blindingNote, ne_of_gt h, h]
  · intro h
    simp [blindingNote, ne_of_lt h, not_lt.mpr h.le]

/-- **C1 witness.** Concrete instantiations of the sign-reading of
`blindingNote` for a positive and a negative delta. -/
theorem c1_sign_conventions_witness :
    blindingNote ((1 : ℚ) - 0) none =
      "Total decreased after blinding (possible prestige boost before)." ∧
    blindingNote ((0 : ℚ) - 1) none =
      "Total increased after blinding (prestige removal increased score)." :=
  ⟨(c1_sign_conventions 1 0).2.2.2.1 (by norm_num),
   (c1_sign_conventions 0 1).2.2.2.2 (by norm_num)⟩

/-- Rewrite `round2 x` when `x * 100` is an integer. -/
theorem round2_of_mul_eq_intCast (z : ℤ) (x : ℚ) (h : x * 100 = (z : ℚ)) :
    round2 x = (z : ℚ) / 100 := by
  rw [round2, h, round_intCast]

/-- A concrete locally cached canonical report that already carries the
optional summary metrics. -/
def sampleLocalReport : ReportPayload :=
  { batch_id := "batch_demo"
    n_candidates := 1
    spearman_rho := some (9/10)
    topk_overlap_count := some 1
    mean_abs_delta := some (1/10)
    candidates := [{ candidate_id := "c1"
                     score := { overall := 80, fairness := 70, transparency := 60 }
                     flags := ["minor_gap"] }] }

/-- **C2, counterexample.** The claim fails as stated: `buildMockReport`
draws `Math.random()` for every score and summary metric, so two calls
on the same `(batch_id, candidate_ids)` — modelled as the same inputs
under two different random streams — return different reports (here
the `spearman_rho` fields differ). -/
theorem c2_counterexample :
    buildMockReport (fun _ => 0) "b" ["a"]
      ≠ buildMockReport (fun _ => 1/2) "b" ["a"] := by
  intro h
  have h1 : (buildMockReport (fun _ => 0) "b" ["a"]).spearman_rho
      = some (round2 (2/5 + 0 * (1/2))) := rfl
  have h2 : (buildMockReport (fun _ => 1/2) "b" ["a"]).spearman_rho
      = some (round2 (2/5 + 1/2 * (1/2))) := rfl
  have h3 := congrArg ReportPayload.spearman_rho h
  rw [h1, h2, round2_of_mul_eq_intCast 40 _ (by norm_num),
    round2_of_mul_eq_intCast 65 _ (by norm_num), Option.some_inj] at h3
  norm_num at h3

/-- **C2, amended.** The local-report normalizer
`fromLocalCanonicalToEvaluation` is deterministic whenever the cached
report already carries numeric `spearman_rho` and `mean_abs_delta`
(its only `Math.random` uses are the fallbacks mocking those two
metrics): for equal inputs its output does not depend on the random
stream.  The mock report builder is excluded — it is genuinely
randomized (see the counterexample). -/
theorem c2_local_normalizer_deterministic (r₁ r₂ : ℕ → ℚ)
    (report : ReportPayload) (topK : Option ℕ)
    (hρ : report.spearman_rho.isSome) (hm : report.mean_abs_delta.isSome) :
    fromLocalCanonicalToEvaluation r₁ report topK
      = fromLocalCanonicalToEvaluation r₂ report topK := by
  obtain ⟨ρ, hρ⟩ := Option.isSome_iff_exists.mp hρ
  obtain ⟨m, hm⟩ := Option.isSome_iff_exists.mp hm
  simp only [fromLocalCanonicalToEvaluation, hρ, hm]

/-- **C2 witness.** Recomputing the evaluation view of a concrete
cached report under two different random streams yields identical
output. -/
theorem c2_local_normalizer_deterministic_witness :
    fromLocalCanonicalToEvaluation (fun _ => 0) sampleLocalReport (some 5)
      = fromLocalCanonicalToEvaluation (fun _ => 1/2) sampleLocalReport (some 5) :=
  c2_local_normalizer_deterministic (fun _ => 0) (fun _ => 1/2)
    sampleLocalReport (some 5) rfl rfl

/-- **C3, counterexample.** The claim fails as stated: on an empty
candidate list (`n = 0`) the mock report builder emits
`topk_overlap_count = Math.floor(1 + Math.random() * 0) = 1`,
violating the required bound `topk_overlap_count ≤ min(k, n) = 0`
(for every `k`, shown here at the default `k = 5`); it also emits no
`topk_overlap_ratio` field at all. -/
theorem c3_counterexample :
    (buildMockReport (fun _ => 0) "b" []).topk_overlap_count = some 1 ∧
    ¬ ((1 : ℤ) ≤ min 5 0) := by
  refine ⟨?_, by norm_num⟩
  have h : (buildMockReport (fun _ => 0) "b" []).topk_overlap_count
      = some ⌊(1 + 0 * ((0 : ℕ) : ℚ) : ℚ)⌋ := rfl
  rw [h]
  norm_num

/-- **C3, amended.** The bound holds for the local-report normalizer:
for every cached report and every `k ≥ 1`,
`fromLocalCanonicalToEvaluation` emits
`topk_overlap_count ∈ [0, min(k, n)]` (it is `min(k, min(n, 3))`, a
natural number) and `topk_overlap_ratio ∈ [0, 1]`; the mock report
builder violates the count bound at `n = 0`, where it emits `1`, and
emits no ratio at all. -/
theorem c3_local_topk_bounds (rand : ℕ → ℚ) (report : ReportPayload)
    (k : ℕ) (hk : 1 ≤ k) :
    (fromLocalCanonicalToEvaluation rand report (some k)).topk_overlap_count
      ≤ min k report.candidates.length ∧
    0 ≤ (fromLocalCanonicalToEvaluation rand report (some k)).topk_overlap_ratio ∧
    (fromLocalCanonicalToEvaluation rand report (some k)).topk_overlap_ratio ≤ 1 := by
  have hcount : (fromLocalCanonicalToEvaluation rand report (some k)).topk_overlap_count
      = min k (min report.candidates.length 3) := rfl
  have hratio : (fromLocalCanonicalToEvaluation rand report (some k)).topk_overlap_ratio
      = if report.candidates.length = 0 then 0
        else ((min k (min report.candidates.length 3) : ℕ) : ℚ)
          / ((min k report.candidates.length : ℕ) : ℚ) := rfl
  refine ⟨?_, ?_, ?_⟩
  · rw [hcount]
    exact min_le_min le_rfl (min_le_left _ _)
  · rw [hratio]
    split_ifs with h
    · norm_num
    · positivity
  · rw [hratio]
    split_ifs with h
    · norm_num
    · have hn : 1 ≤ report.candidates.length := Nat.one_le_iff_ne_zero.mpr h
      have hden : (0 : ℚ) < ((min k report.candidates.length : ℕ) : ℚ) := by
        have h1 : 1 ≤ min k report.candidates.length := le_min hk hn
        exact_mod_cast Nat.lt_of_lt_of_le Nat.zero_lt_one h1
      rw [div_le_one hden]
      exact_mod_cast min_le_min le_rfl (min_le_left _ _)

/-- **C3 witness.** The bounds instantiated on a concrete one-candidate
report with the default `k = 5`. -/
theorem c3_local_topk_bounds_witness :
    (fromLocalCanonicalToEvaluation (fun _ => 0) sampleLocalReport (some 5)).topk_overlap_count
      ≤ min 5 sampleLocalReport.candidates.length ∧
    0 ≤ (fromLocalCanonicalToEvaluation (fun _ => 0) sampleLocalReport (some 5)).topk_overlap_ratio ∧
    (fromLocalCanonicalToEvaluation (fun _ => 0) sampleLocalReport (some 5)).topk_overlap_ratio ≤ 1 :=
  c3_local_topk_bounds (fun _ => 0) sampleLocalReport 5 (by norm_num)

/-- `clamp05` lands in `[0, 5]`. -/
theorem clamp05_mem (x : ℚ) : 0 ≤ clamp05 x ∧ clamp05 x ≤ 5 :=
  ⟨le_max_left _ _, max_le (by norm_num) (min_le_left _ _)⟩

/-- **C6.** For every rubric, keyword table, base/increment
configuration and candidate text (including the empty one), the
spec-modelled rubric scorer returns a weighted total in `[0, 5]` and a
per-criterion score in `[0, 5]` for every criterion. -/
theorem c6_rubric_score_bounds (rubric : List SpecCriterion)
    (table : String → List String) (base increment : ℚ) (text : List String) :
    (0 ≤ (rubricScore rubric table base increment text).total ∧
      (rubricScore rubric table base increment text).total ≤ 5) ∧
    (rubricScore rubric table base increment text).by_criterion.Forall
      (fun s => 0 ≤ s.score ∧ s.score ≤ 5) := by
  refine ⟨clamp05_mem _, ?_⟩
  rw [List.forall_iff_forall_mem]
  intro s hs
  simp only [rubricScore, List.mem_map] at hs
  obtain ⟨c, _, hc⟩ := hs
  rw [← hc]
  exact clamp05_mem _

/-- **C7.** For every blinding configuration whose neutral placeholder
itself matches neither removal predicate, and every candidate text,
the spec-modelled `ProxyBlinder.blind` produces a blinded text
containing no token of
`tokens_strict_removed ∪ tokens_generic_removed`: removal is complete
within the blinded copy. -/
theorem c7_blind_removes_all_tokens (isStrict isGeneric : String → Bool)
    (placeholder : String) (text : List String)
    (hs : isStrict placeholder = false) (hg : isGeneric placeholder = false) :
    ∀ t, (t ∈ (blind isStrict isGeneric placeholder text).tokens_strict_removed ∨
          t ∈ (blind isStrict isGeneric placeholder text).tokens_generic_removed) →
      t ∉ (blind isStrict isGeneric placeholder text).blinded_text := by
  intro t ht hmem
  have hhit : isStrict t = true ∨ isGeneric t = true := by
    rcases ht with h | h
    · simp only [blind, List.mem_dedup, List.mem_filter] at h
      exact Or.inl h.2
    · simp only [blind, List.mem_dedup, List.mem_filter] at h
      exact Or.inr h.2
  simp only [blind, List.mem_map] at hmem
  obtain ⟨w, _, hWeq⟩ := hmem
  by_cases hcase : (isStrict w || isGeneric w) = true
  · rw [if_pos hcase] at hWeq
    rw [← hWeq] at hhit
    rcases hhit with h | h
    · rw [hs] at h
      exact Bool.false_ne_true h
    · rw [hg] at h
      exact Bool.false_ne_true h
  · rw [if_neg hcase] at hWeq
    rw [← hWeq] at hhit
    rw [Bool.or_eq_true] at hcase
    push_neg at hcase
    rcases hhit with h | h
    · exact hcase.1 h
    · exact hcase.2 h

/-- **C7 witness.** On the token list `["MIT", "grad", "Stanford"]`
with `"MIT"` in the strict list and `"Stanford"` matching the generic
pattern, the removed token `"MIT"` does not occur in the blinded
text. -/
theorem c7_blind_removes_all_tokens_witness :
    "MIT" ∉ (blind (fun w => w == "MIT") (fun w => w == "Stanford") "[X]"
      ["MIT", "grad", "Stanford"]).blinded_text :=
  c7_blind_removes_all_tokens (fun w => w == "MIT") (fun w => w == "Stanford")
    "[X]" ["MIT", "grad", "Stanford"] (by decide) (by decide)
    "MIT" (Or.inl (by decide))

/-- **C9, counterexample.** The claim fails as stated: on a flag list
whose first `DEBUG` flag carries a numeric `delta` (here `9`) and
whose `BLINDING_DELTA` flag carries `total_before = 5`,
`total_after = 4`, `getDelta` returns the `DEBUG` delta `9` verbatim,
not `total_before − total_after` rounded to 2 decimals (`1`). -/
theorem c9_counterexample :
    getDelta [dbgFlag 9, bdFlag 5 4] = 9 ∧
    round2 ((5 : ℚ) - 4) = 1 ∧ (9 : ℚ) ≠ 1 := by
  refine ⟨rfl, ?_, by norm_num⟩
  rw [round2_of_mul_eq_intCast 100 _ (by norm_num)]
  norm_num

/-- **C9, amended.** `getDelta` is total by construction (every access
is guarded), and: it returns exactly `0` when no `DEBUG` flag carries
a numeric `delta` and no `BLINDING_DELTA` flag carries both numeric
totals — so an unknown delta is indistinguishable from a true zero
delta; when the first `DEBUG` flag carries a numeric `delta` it
returns that value verbatim (unrounded); otherwise, when the first
`BLINDING_DELTA` flag carries both totals, it returns
`total_before − total_after` rounded to 2 decimal places. -/
theorem c9_getDelta_cases :
    (∀ flags : List FlagObj,
      (∀ f ∈ flags, f.type = "DEBUG" → (f.details.getD emptyDetails).delta = none) →
      (∀ f ∈ flags, f.type = "BLINDING_DELTA" →
        (f.details.getD emptyDetails).total_before = none ∨
        (f.details.getD emptyDetails).total_after = none) →
      getDelta flags = 0) ∧
    (∀ (flags : List FlagObj) (d : ℚ),
      (getDebug flags).delta = some d → getDelta flags = d) ∧
    (∀ (flags : List FlagObj) (g : FlagObj) (det : FlagDetails) (tb ta : ℚ),
      (getDebug flags).delta = none →
      flags.find? (fun f => f.type = "BLINDING_DELTA") = some g →
      g.details = some det →
      det.total_before = some tb →
      det.total_after = some ta →
      getDelta flags = round2 (tb - ta)) := by
  refine ⟨?_, ?_, ?_⟩
  · intro flags h1 h2
    have hdbg : (getDebug flags).delta = none := by
      unfold getDebug
      cases hf : flags.find? (fun f => f.type = "DEBUG") with
      | none => rfl
      | some f =>
        have hmem := List.mem_of_find?_eq_some hf
        have hp := List.find?_some (p := fun g : FlagObj => decide (g.type = "DEBUG")) hf
        exact h1 f hmem (of_decide_eq_true hp)
    simp only [getDelta, hdbg]
    cases hg : flags.find? (fun f => f.type = "BLINDING_DELTA") with
    | none => rfl
    | some g =>
      have hmem := List.mem_of_find?_eq_some hg
      have hp := List.find?_some (p := fun f : FlagObj => decide (f.type = "BLINDING_DELTA")) hg
      have hor := h2 g hmem (of_decide_eq_true hp)
      cases hd : g.details with
      | none => simp [hd]
      | some det =>
        rw [hd] at hor
        simp only [Option.getD_some] at hor
        rcases hor with h | h
        · simp [hd, h]
        · cases htb : det.total_before with
          | none => simp [hd, h, htb]
          | some tb => simp [hd, h, htb]
  · intro flags d h
    simp only [getDelta, h]
  · intro flags g det tb ta hdbg hfind hdet htb hta
    simp only [getDelta, hdbg, hfind, hdet, htb, hta]

/-- **C9 witness.** Concrete instantiation of the zero case: a
`BLINDING_DELTA` flag missing `total_after` and a flag with no details
produce delta `0`. -/
theorem c9_getDelta_cases_witness :
    getDelta [{ type := "BLINDING_DELTA", severity := .warning,
                details := some { total_before := some 3 } },
              { type := "NO_EVIDENCE", severity := .warning }] = 0 :=
  c9_getDelta_cases.1 _ (by
    intro f hf hty
    simp only [List.mem_cons, List.not_mem_nil, or_false] at hf
    rcases hf with h | h
    · rw [h] at hty
      exact absurd hty (by decide)
    · rw [h] at hty
      exact absurd hty (by decide))
  (by
    intro f hf hty
    simp only [List.mem_cons, List.not_mem_nil, or_false] at hf
    rcases hf with h | h
    · rw [h]
      exact Or.inr rfl
    · rw [h] at hty
      exact absurd hty (by decide))

/-- Each score falls in exactly one of the three coverage buckets, so
the bucket counts sum to the number of scores. -/
theorem coverage_count_partition (l : List ℚ) :
    l.countP (fun s => decide ((7 : ℚ)/10 ≤ s))
      + l.countP (fun s => decide ((2 : ℚ)/5 ≤ s ∧ s < 7/10))
      + l.countP (fun s => decide (s < (2 : ℚ)/5)) = l.length := by
  induction l with
  | nil => rfl
  | cons a t ih =>
    simp only [List.countP_cons, List.length_cons]
    rcases le_or_lt ((7 : ℚ)/10) a with h7 | h7
    · have h4 : ¬ a < (2 : ℚ)/5 := by push_neg; linarith
      have hw : ¬ ((2 : ℚ)/5 ≤ a ∧ a < 7/10) := by
        rintro ⟨_, hlt⟩
        linarith
      simp only [decide_eq_true_eq, h7, hw, h4, if_true, if_false,
        eq_self_iff_true, not_false_iff]
      omega
    · rcases le_or_lt ((2 : ℚ)/5) a with h4 | h4
      · have hw : ((2 : ℚ)/5 ≤ a ∧ a < 7/10) := ⟨h4, h7⟩
        have hm : ¬ a < (2 : ℚ)/5 := not_lt.mpr h4
        have hs : ¬ ((7 : ℚ)/10 ≤ a) := not_le.mpr h7
        simp only [decide_eq_true_eq, hw, hm, hs, and_self, if_true, if_false,
          eq_self_iff_true, not_false_iff]
        omega
      · have hs : ¬ ((7 : ℚ)/10 ≤ a) := not_le.mpr h7
        have hw : ¬ ((2 : ℚ)/5 ≤ a ∧ a < 7/10) := by
          rintro ⟨hge, _⟩
          linarith
        simp only [decide_eq_true_eq, hs, hw, h4, if_true, if_false,
          eq_self_iff_true, not_false_iff]
        omega

/-- **C10.** `evidenceCoverage` partitions the criteria exactly: each
criterion is counted in precisely one of strong (`≥ 0.7`), weak
(`[0.4, 0.7)`) or miss (`< 0.4`), a criterion missing from the `DEBUG`
`evidence_overlap` map counting as `0`, so
`strong + weak + miss = |criteria|`; and
`pct = round(100 · strong / |criteria|)` (`0` for no criteria) lies in
`[0, 100]`. -/
theorem c10_evidence_coverage_partition (flags : List FlagObj)
    (crits : List Criterion) :
    (evidenceCoverage flags crits).strong + (evidenceCoverage flags crits).weak
        + (evidenceCoverage flags crits).miss = crits.length ∧
    0 ≤ (evidenceCoverage flags crits).pct ∧
    (evidenceCoverage flags crits).pct ≤ 100 := by
  have hlen : ((crits.map (·.key)).map
      (fun k => (((getDebug flags).evidence_overlap).lookup k).getD 0)).length
      = crits.length := by
    rw [List.length_map, List.length_map]
  have hkeys : (crits.map (·.key)).length = crits.length := List.length_map _ _
  have hstrong : (evidenceCoverage flags crits).strong
      = ((crits.map (·.key)).map
          (fun k => (((getDebug flags).evidence_overlap).lookup k).getD 0)).countP
        (fun s => decide ((7 : ℚ)/10 ≤ s)) := rfl
  have hweak : (evidenceCoverage flags crits).weak
      = ((crits.map (·.key)).map
          (fun k => (((getDebug flags).evidence_overlap).lookup k).getD 0)).countP
        (fun s => decide ((2 : ℚ)/5 ≤ s ∧ s < 7/10)) := rfl
  have hmiss : (evidenceCoverage flags crits).miss
      = ((crits.map (·.key)).map
          (fun k => (((getDebug flags).evidence_overlap).lookup k).getD 0)).countP
        (fun s => decide (s < (2 : ℚ)/5)) := rfl
  have hpct : (evidenceCoverage flags crits).pct
      = if (crits.map (·.key)).length = 0 then 0
        else round
          ((((crits.map (·.key)).map
              (fun k => (((getDebug flags).evidence_overlap).lookup k).getD 0)).countP
            (fun s => decide ((7 : ℚ)/10 ≤ s)) : ℚ)
            / ((crits.map (·.key)).length : ℚ) * 100) := rfl
  refine ⟨?_, ?_⟩
  · rw [hstrong, hweak, hmiss, coverage_count_partition, hlen]
  · rw [hpct]
    split_ifs with h0
    · norm_num
    · set l := (crits.map (·.key)).map
        (fun k => (((getDebug flags).evidence_overlap).lookup k).getD 0) with hl
      set s := l.countP (fun s => decide ((7 : ℚ)/10 ≤ s)) with hsdef
      have hsle : s ≤ (crits.map (·.key)).length := by
        calc s ≤ l.length := List.countP_le_length _
          _ = (crits.map (·.key)).length := by rw [hl, List.length_map]
      have hnpos : 0 < ((crits.map (·.key)).length : ℚ) := by
        have : 0 < (crits.map (·.key)).length := Nat.pos_of_ne_zero h0
        exact_mod_cast this
      have hx0 : 0 ≤ ((s : ℚ) / ((crits.map (·.key)).length : ℚ)) * 100 := by
        positivity
    -- x ≤ 100 since s ≤ length
      have hx1 : ((s : ℚ) / ((crits.map (·.key)).length : ℚ)) * 100 ≤ 100 := by
        have hdiv : (s : ℚ) / ((crits.map (·.key)).length : ℚ) ≤ 1 := by
          rw [div_le_one hnpos]
          exact_mod_cast hsle
        linarith
      constructor
      · rw [round_eq, Int.le_floor]
        push_cast
        linarith
      · rw [round_eq]
        have : ⌊((s : ℚ) / ((crits.map (·.key)).length : ℚ)) * 100 + 1/2⌋ < 101 := by
          rw [Int.floor_lt]
          push_cast
          linarith
        omega

end Hirethics
